import Mathlib

/-!
Shallow embedding of the conversation/requirements subsystem of the
`ide-z-ai` repository:

* `ConvRoute` — `src/src/app/api/voice/conversation/route.ts`: the stateful
  conversation API (`start`, `send_message`, `get_conversation`,
  `end_conversation`) over an in-memory store.
* `ReqRoute` — the stateless requirements-processing API route
  (`analyzeTranscriptForRequirements`, `generateConversationResponse`).
* `AppGen` — the template-based app generator (`generateAppName`,
  the todo-template selection of `generateWebFiles`).

TypeScript strings are Lean `String`s; JavaScript `String.prototype.includes`
is modelled by an explicit substring test on `List Char`;
`string.toLowerCase()` is `Char.toLower` mapped over the characters
(all keywords involved are ASCII). The `currentStep` string union of the
conversation route is modelled as the inductive `Step` with one
constructor per literal; the remaining string-union types of the source
(`role`, response `type`, `uiStyle`, `complexity`) stay plain `String`s,
as in TypeScript. Values produced by external
nondeterminism (`Date.now()` timestamps, random message / conversation
identifiers, the randomly sampled confidence) are passed in as explicit
parameters. The `context` field of a conversation (`userPreferences`,
`technicalConstraints`, `previousApps`) is written at creation and never
read by any code path, so it is omitted from the state record.
-/

/-- Lower-case the characters of a string (model of `s.toLowerCase()` for
the ASCII strings this code deals in). -/
def lowerChars (s : String) : List Char := s.toList.map Char.toLower

/-- `needlePrefix needle hay` is true when `needle` is an initial segment of
`hay` (helper for the substring test). -/
def needlePrefix : List Char → List Char → Bool
  | [], _ => true
  | _ :: _, [] => false
  | a :: as, b :: bs => a = b && needlePrefix as bs

/-- `containsSub needle hay` models `hay.includes(needle)` of JavaScript for
a non-empty `needle`. -/
def containsSub (needle : List Char) : List Char → Bool
  | [] => needlePrefix needle []
  | c :: rest => needlePrefix needle (c :: rest) || containsSub needle rest

/-- Keyword test: does the (already lower-cased) character list contain the
given keyword as a substring? -/
def kw (s : String) (hay : List Char) : Bool := containsSub s.toList hay

namespace ConvRoute

/-- The `currentStep` string union of route.ts
(`greeting | requirement_gathering | clarification | confirmation |
completion`), modelled as an inductive with one constructor per literal. -/
inductive Step
  | greeting
  | requirement_gathering
  | clarification
  | confirmation
  | completion
deriving DecidableEq

/-- `ConversationMessage` of route.ts. -/
structure ConversationMessage where
  role : String
  content : String
  timestamp : String
  messageId : String
deriving DecidableEq

/-- Accumulated requirements (`extractedRequirements` is `any` in the
source; the values that actually flow into it are shallow merges of
objects carrying a `platforms` and/or a `features` key, so it is modelled
as a record of optional fields, a missing key being `none`). -/
structure Reqs where
  platforms : Option (List String)
  features : Option (List String)
deriving DecidableEq

/-- Shallow object-spread merge `{...old, ...new}` where a key present in
`new` overwrites the one in `old`. -/
def mergeReqs (old : Option Reqs) (new : Reqs) : Reqs :=
  { platforms := match new.platforms with
      | some p => some p
      | none => old.bind Reqs.platforms
    features := match new.features with
      | some f => some f
      | none => old.bind Reqs.features }

/-- `ConversationState` of route.ts (the never-read `context` field is
omitted, see the file header). -/
structure ConversationState where
  conversationId : String
  messages : List ConversationMessage
  currentStep : Step
  extractedRequirements : Option Reqs
deriving DecidableEq

/-- The in-memory `conversations` map. -/
def Store := String → Option ConversationState

/-- `conversations.get`. -/
def Store.get (s : Store) (k : String) : Option ConversationState := s k

/-- `conversations.set`. -/
def Store.set (s : Store) (k : String) (v : ConversationState) : Store :=
  fun k2 => if k2 = k then some v else s k2

/-- The store at process start: empty. -/
def emptyStore : Store := fun _ => none

/-- `containsAppIdea` of route.ts (argument is the lower-cased message). -/
def containsAppIdea (m : List Char) : Bool :=
  ["app", "application", "build", "create", "develop", "make"].any (fun k => kw k m)

/-- `containsPlatformInfo` of route.ts. -/
def containsPlatformInfo (m : List Char) : Bool :=
  ["web", "mobile", "android", "ios", "iphone", "website"].any (fun k => kw k m)

/-- `containsFeatureInfo` of route.ts. -/
def containsFeatureInfo (m : List Char) : Bool :=
  ["feature", "function", "do", "should", "need", "want"].any (fun k => kw k m)

/-- `containsConfirmation` of route.ts. -/
def containsConfirmation (m : List Char) : Bool :=
  ["yes", "correct", "right", "exactly", "perfect", "good"].any (fun k => kw k m)

/-- Result record of `analyzeUserMessage` (the unused `context` parameter of
the source function is dropped). -/
structure Analysis where
  initialRequirements : Reqs
  platformRequirements : Reqs
  featureRequirements : Reqs
deriving DecidableEq

/-- `analyzeUserMessage` of route.ts. -/
def analyzeUserMessage (message : String) : Analysis :=
  let lowerMessage := lowerChars message
  let platforms :=
    (if kw "web" lowerMessage then ["web"] else []) ++
    (if kw "android" lowerMessage || kw "mobile" lowerMessage then ["android"] else []) ++
    (if kw "ios" lowerMessage || kw "iphone" lowerMessage then ["ios"] else [])
  let features :=
    (if kw "login" lowerMessage || kw "user" lowerMessage then ["authentication"] else []) ++
    (if kw "data" lowerMessage || kw "storage" lowerMessage then ["database"] else []) ++
    (if kw "notification" lowerMessage then ["push notifications"] else []) ++
    (if kw "social" lowerMessage then ["social features"] else [])
  { initialRequirements := ⟨some platforms, some features⟩
    platformRequirements := ⟨some platforms, none⟩
    featureRequirements := ⟨none, some features⟩ }

/-- Return record of `generateAIResponse` (`requiresAction` is `undefined`,
hence falsy, except where set; `extractedRequirements` is absent except
where set). -/
structure AIResponse where
  content : String
  nextStep : Step
  extractedRequirements : Option Reqs
  requiresAction : Bool
deriving DecidableEq

/-- `generateAIResponse` of route.ts: the conversation state machine. -/
def generateAIResponse (conversation : ConversationState) (userMessage : String) : AIResponse :=
  let lowerMessage := lowerChars userMessage
  let analysis := analyzeUserMessage userMessage
  match conversation.currentStep with
  | .greeting =>
    if containsAppIdea lowerMessage then
      { content := "That sounds like a great app idea! I can help you build that. Let me ask a few questions to make sure I understand exactly what you need. Which platforms would you like this app to work on - web, mobile, or both?"
        nextStep := .requirement_gathering
        extractedRequirements := some analysis.initialRequirements
        requiresAction := false }
    else
      { content := "I\x27d love to help you create an app! Could you tell me what kind of app you have in mind? For example, is it a todo app, a fitness tracker, a recipe manager, or something else entirely?"
        nextStep := .greeting
        extractedRequirements := none
        requiresAction := false }
  | .requirement_gathering =>
    if containsPlatformInfo lowerMessage then
      { content := "Perfect! Now, what specific features are most important to you? For example, do you need user accounts, data storage, notifications, or integration with other services?"
        nextStep := .requirement_gathering
        extractedRequirements :=
          some (mergeReqs conversation.extractedRequirements analysis.platformRequirements)
        requiresAction := false }
    else if containsFeatureInfo lowerMessage then
      { content := "Excellent! I\x27m getting a clear picture of what you want. Just to make sure I understand correctly, you want an app with [summarize features]. Is that right?"
        nextStep := .clarification
        extractedRequirements :=
          some (mergeReqs conversation.extractedRequirements analysis.featureRequirements)
        requiresAction := false }
    else
      { content := "I\x27m listening! Tell me more about what you\x27d like your app to do. What are the main features or functionality you need?"
        nextStep := .requirement_gathering
        extractedRequirements := none
        requiresAction := false }
  | .clarification =>
    if containsConfirmation lowerMessage then
      { content := "Wonderful! I have all the information I need to create your app. You can now generate the app, or if you\x27d like to make any changes, just let me know!"
        nextStep := .completion
        extractedRequirements := none
        requiresAction := true }
    else
      { content := "I want to make sure I get this exactly right. Could you clarify what you meant by [clarification point]?"
        nextStep := .clarification
        extractedRequirements := none
        requiresAction := false }
  | _ =>
    { content := "I\x27m here to help you create your app! What would you like to discuss?"
      nextStep := .greeting
      extractedRequirements := none
      requiresAction := false }

/-- Fresh values a `send_message` call draws from the environment: the two
`new Date().toISOString()` timestamps and the two random message ids. -/
structure Fresh where
  ts1 : String
  mid1 : String
  ts2 : String
  mid2 : String
deriving DecidableEq

/-- The state update a successful `send_message` performs on the stored
conversation: push the user message, compute the AI response, push the
assistant message, set `currentStep`, and overwrite
`extractedRequirements` when the response carries one (an object is always
truthy in the source's `if (aiResponse.extractedRequirements)`). -/
def applySend (conversation : ConversationState) (message : String) (f : Fresh) :
    ConversationState :=
  let userMessage : ConversationMessage := ⟨"user", message, f.ts1, f.mid1⟩
  let conv1 := { conversation with messages := conversation.messages ++ [userMessage] }
  let aiResponse := generateAIResponse conv1 message
  let assistantMessage : ConversationMessage := ⟨"assistant", aiResponse.content, f.ts2, f.mid2⟩
  { conv1 with
    messages := conv1.messages ++ [assistantMessage]
    currentStep := aiResponse.nextStep
    extractedRequirements := match aiResponse.extractedRequirements with
      | some r => some r
      | none => conv1.extractedRequirements }

/-- JSON payload of a successful `send_message`. -/
structure SendOutput where
  userMessage : ConversationMessage
  assistantMessage : ConversationMessage
  currentState : ConversationState
  requiresAction : Bool
deriving DecidableEq

/-- `handleSendMessage` of route.ts. On an unknown id it returns the 404
error before touching the store; otherwise it performs exactly the update
`applySend` describes and stores the result back under the same id. -/
def handleSendMessage (store : Store) (conversationId message : String) (f : Fresh) :
    Except String SendOutput × Store :=
  match store.get conversationId with
  | none => (Except.error "Conversation not found", store)
  | some conversation =>
    let userMessage : ConversationMessage := ⟨"user", message, f.ts1, f.mid1⟩
    let conv1 := { conversation with messages := conversation.messages ++ [userMessage] }
    let aiResponse := generateAIResponse conv1 message
    let assistantMessage : ConversationMessage := ⟨"assistant", aiResponse.content, f.ts2, f.mid2⟩
    let conv2 := { conv1 with
      messages := conv1.messages ++ [assistantMessage]
      currentStep := aiResponse.nextStep
      extractedRequirements := match aiResponse.extractedRequirements with
        | some r => some r
        | none => conv1.extractedRequirements }
    (Except.ok ⟨userMessage, assistantMessage, conv2, aiResponse.requiresAction⟩,
      Store.set store conversationId conv2)

/-- The canned greeting of `handleStartConversation`. -/
def greetingContent : String :=
  "Hello! I\x27m your AI app development assistant. I\x27d love to help you create your perfect app. To get started, could you tell me what kind of app you\x27d like to build?"

/-- JSON payload of `start`. -/
structure StartOutput where
  conversationId : String
  message : ConversationMessage
  currentState : ConversationState
deriving DecidableEq

/-- `handleStartConversation` of route.ts. The generated conversation id,
timestamp and message id are passed in (`userId` is accepted and unused,
as in the source). -/
def handleStartConversation (store : Store) (userId conversationId ts mid : String) :
    StartOutput × Store :=
  let greetingMessage : ConversationMessage := ⟨"assistant", greetingContent, ts, mid⟩
  let initialState : ConversationState :=
    { conversationId := conversationId
      messages := [greetingMessage]
      currentStep := .greeting
      extractedRequirements := none }
  (⟨conversationId, greetingMessage, initialState⟩, Store.set store conversationId initialState)

/-- `handleGetConversation` of route.ts. -/
def handleGetConversation (store : Store) (conversationId : String) :
    Except String ConversationState × Store :=
  match store.get conversationId with
  | none => (Except.error "Conversation not found", store)
  | some conversation => (Except.ok conversation, store)

/-- The canned closing message of `handleEndConversation`. -/
def closingContent : String :=
  "Thank you for sharing your app idea! I have a good understanding of what you want to create. You can now proceed to generate your app, or feel free to ask me any other questions."

/-- `handleEndConversation` of route.ts: appends the closing message, moves
the conversation to `completion` and returns the final requirements (the
derived display summary string is not modelled). -/
def handleEndConversation (store : Store) (conversationId ts mid : String) :
    Except String (ConversationMessage × Option Reqs) × Store :=
  match store.get conversationId with
  | none => (Except.error "Conversation not found", store)
  | some conversation =>
    let closingMessage : ConversationMessage := ⟨"assistant", closingContent, ts, mid⟩
    let conv2 := { conversation with
      messages := conversation.messages ++ [closingMessage]
      currentStep := .completion }
    (Except.ok (closingMessage, conv2.extractedRequirements), Store.set store conversationId conv2)

/-- One `send_message` call's externally supplied data: the message text
plus the fresh timestamps / ids. -/
structure SendInput where
  message : String
  fresh : Fresh
deriving DecidableEq

/-- Iterate `send_message` calls against one conversation id. -/
def runSends (store : Store) (conversationId : String) : List SendInput → Store
  | [] => store
  | i :: is =>
    runSends (handleSendMessage store conversationId i.message i.fresh).2 conversationId is

end ConvRoute

namespace ReqRoute

/-- First-occurrence deduplication with a seen-accumulator: the model of
JavaScript `[...new Set(l)]`, which keeps the first occurrence of each
element in order. -/
def dedupAux : List String → List String → List String
  | [], _ => []
  | x :: xs, seen =>
    if seen.contains x then dedupAux xs seen else x :: dedupAux xs (x :: seen)

/-- `[...new Set(l)]`. -/
def dedupFirst (l : List String) : List String := dedupAux l []

/-- `technicalRequirements` of the `RequirementsAnalysis` interface. -/
structure TechnicalRequirements where
  database : Bool
  authentication : Bool
  externalApis : List String
deriving DecidableEq

/-- `RequirementsAnalysis` of the stateless requirements route (`uiStyle`
and `complexity` are TypeScript string unions, kept as strings). -/
structure RequirementsAnalysis where
  platforms : List String
  coreFeatures : List String
  uiStyle : String
  complexity : String
  technicalRequirements : TechnicalRequirements
deriving DecidableEq

/-- The fixed domain-keyword dictionary `featureKeywords`, in the source's
insertion order (`Object.entries` iterates in that order). -/
def featureKeywords : List (String × List String) :=
  [("todo", ["task management", "reminders", "categories", "due dates"]),
   ("recipe", ["ingredients", "cooking instructions", "shopping lists", "meal planning"]),
   ("fitness", ["workouts", "exercise tracking", "progress charts", "health data"]),
   ("budget", ["expense tracking", "categories", "spending analysis", "reports"]),
   ("social", ["user profiles", "posts", "comments", "likes", "sharing"]),
   ("habit", ["daily tracking", "streaks", "reminders", "progress visualization"]),
   ("meditation", ["guided sessions", "timer", "progress tracking", "calming sounds"]),
   ("language", ["flashcards", "lessons", "progress tracking", "quizzes"])]

/-- `analyzeTranscriptForRequirements` of the requirements route, minus the
confidence: the requirements are a pure function of the transcript (the
unused `history` parameter is dropped; the confidence is
`Math.random() * 0.3 + 0.7`, external randomness modelled as a separate
rational parameter where needed). -/
def analyzeTranscriptForRequirements (transcript : String) : RequirementsAnalysis :=
  let lowerTranscript := lowerChars transcript
  let platforms0 :=
    (if kw "web" lowerTranscript || kw "website" lowerTranscript then ["web"] else []) ++
    (if kw "android" lowerTranscript || kw "mobile" lowerTranscript then ["android"] else []) ++
    (if kw "ios" lowerTranscript || kw "iphone" lowerTranscript then ["ios"] else [])
  let platforms := if platforms0.length = 0 then platforms0 ++ ["web"] else platforms0
  let coreFeatures0 := featureKeywords.foldl
    (fun acc p => if kw p.1 lowerTranscript then acc ++ p.2 else acc) []
  let coreFeatures1 :=
    if coreFeatures0.length = 0 then
      ["user interface", "data management", "responsive design"]
    else coreFeatures0
  let uiStyle0 := "modern"
  let uiStyle1 :=
    if kw "minimalist" lowerTranscript || kw "simple" lowerTranscript then "minimalist"
    else uiStyle0
  let uiStyle :=
    if kw "corporate" lowerTranscript || kw "professional" lowerTranscript then "corporate"
    else uiStyle1
  let complexity0 := "intermediate"
  let complexity1 :=
    if kw "simple" lowerTranscript || kw "basic" lowerTranscript then "basic"
    else complexity0
  let complexity :=
    if kw "complex" lowerTranscript || kw "advanced" lowerTranscript then "advanced"
    else complexity1
  let needsDatabase := kw "data" lowerTranscript || kw "storage" lowerTranscript ||
    kw "save" lowerTranscript || kw "sync" lowerTranscript
  let needsAuth := kw "login" lowerTranscript || kw "user" lowerTranscript ||
    kw "account" lowerTranscript || kw "profile" lowerTranscript
  let externalApis :=
    (if kw "payment" lowerTranscript then ["payment processing"] else []) ++
    (if kw "map" lowerTranscript || kw "location" lowerTranscript then ["maps/geolocation"] else []) ++
    (if kw "notification" lowerTranscript then ["push notifications"] else []) ++
    (if kw "social" lowerTranscript || kw "share" lowerTranscript then ["social media"] else [])
  { platforms := platforms
    coreFeatures := (dedupFirst coreFeatures1).take 5
    uiStyle := uiStyle
    complexity := complexity
    technicalRequirements :=
      { database := needsDatabase
        authentication := needsAuth
        externalApis := externalApis } }

/-- `ConversationResponse` of the requirements route (`type` is the string
union `clarification | confirmation | completion`). -/
structure ConversationResponse where
  type : String
  message : String
  questions : List String
deriving DecidableEq

/-- `generateConversationResponse` of the requirements route. The
`confidence` is the randomly sampled number of the analysis, modelled as a
rational; `currentState` is accepted and unused exactly as in the source. -/
def generateConversationResponse (requirements : RequirementsAnalysis) (confidence : ℚ)
    (currentState : String) : ConversationResponse :=
  if confidence < 0.8 then
    { type := "clarification"
      message := "I want to make sure I understand your requirements correctly. Could you provide more details about what you\x27d like your app to do?"
      questions :=
        ["What specific features are most important to you?",
         "Which platforms do you need the app to work on?",
         "Do you need user accounts or data storage?"] }
  else if requirements.platforms.length = 0 then
    { type := "clarification"
      message := "I\x27d like to know which platforms you need your app to support."
      questions :=
        ["Do you need a web app, mobile app, or both?",
         "Should it work on iOS, Android, or both?"] }
  else if 3 ≤ requirements.coreFeatures.length ∧ 0.8 ≤ confidence then
    let ps := String.intercalate ", " requirements.platforms
    let fs := String.intercalate ", " (requirements.coreFeatures.take 3)
    { type := "confirmation"
      message := s!"Great! I understand you want to create a {requirements.complexity} {requirements.uiStyle}-style app for {ps} with features like {fs}. Does this sound correct?"
      questions :=
        ["Are these the main features you want?",
         "Would you like to add any other features?",
         "Should I proceed with generating the app?"] }
  else
    { type := "clarification"
      message := "I\x27m getting a good understanding of what you want. To make sure I create the perfect app for you, could you tell me more about:"
      questions :=
        ["What\x27s the primary goal of your app?",
         "Who are the main users?",
         "Are there any specific features you definitely want to include?"] }

/-- The `nextState` field the route's `POST` handler returns:
`response.type === completion ? complete : currentState`, where
`currentState` defaults to `gathering_requirements` when the request omits
it. -/
def postNextState (response : ConversationResponse) (currentState : Option String) : String :=
  let cs := currentState.getD "gathering_requirements"
  if response.type = "completion" then "complete" else cs

/-- The response-type selector exactly as the specification words it:
confidence below 0.8 gives clarification; empty platforms give
clarification; at least 3 features with confidence at least 0.8 give
confirmation; everything else gives clarification. -/
def specResponseType (platforms : List String) (nFeatures : ℕ) (confidence : ℚ) : String :=
  if confidence < 0.8 then "clarification"
  else if platforms = [] then "clarification"
  else if 3 ≤ nFeatures ∧ 0.8 ≤ confidence then "confirmation"
  else "clarification"

end ReqRoute

namespace AppGen

/-- Split a character list at every space character, the model of
JavaScript `s.split(char 32)` (consecutive separators produce empty
words, as in JavaScript). -/
def splitSpaceAux : List Char → List Char → List String
  | [], acc => [String.mk acc.reverse]
  | c :: cs, acc =>
    if c = Char.ofNat 32 then String.mk acc.reverse :: splitSpaceAux cs []
    else splitSpaceAux cs (c :: acc)

/-- `idea.toLowerCase().split(space)`. -/
def lowerWords (idea : String) : List String := splitSpaceAux (lowerChars idea) []

/-- The fixed stop-word list of `generateAppName`. -/
def stopWords : List String := ["with", "that", "for", "and", "the", "app", "application"]

/-- The surviving words of `generateAppName`: words longer than 3
characters that are not stop-words, the first 2 of them. -/
def nameWords (idea : String) : List String :=
  ((lowerWords idea).filter (fun word =>
    decide (3 < word.length) && !(stopWords.contains word))).take 2

/-- `word.charAt(0).toUpperCase() + word.slice(1)` (the keywords are ASCII,
so upper-casing the first character models `toUpperCase` of the one-char
string). -/
def capitalize (word : String) : String :=
  match word.toList with
  | [] => word
  | c :: cs => String.mk (c.toUpper :: cs)

/-- `generateAppName` of the app generator. -/
def generateAppName (idea : String) : String :=
  if (nameWords idea).length = 0 then "MyApp"
  else String.join ((nameWords idea).map capitalize)

/-- The template choice of `generateWebFiles`:
`const isTodoApp = idea.toLowerCase().includes(todo)` selects the
todo-shaped template, otherwise the generic one. The template strings
themselves are opaque artifacts and are not modelled. -/
def usesTodoTemplate (idea : String) : Bool := kw "todo" (lowerChars idea)

end AppGen

namespace ReqRoute

/-- Does the transcript mention any of the six platform keywords the
extractor tests (`web`, `website`, `android`, `mobile`, `ios`, `iphone`)? -/
def mentionsPlatform (t : String) : Bool :=
  kw "web" (lowerChars t) || kw "website" (lowerChars t) ||
  kw "android" (lowerChars t) || kw "mobile" (lowerChars t) ||
  kw "ios" (lowerChars t) || kw "iphone" (lowerChars t)

/-- Does the transcript mention any of the eight domain keywords of the
feature dictionary? -/
def mentionsDomain (t : String) : Bool :=
  kw "todo" (lowerChars t) || kw "recipe" (lowerChars t) ||
  kw "fitness" (lowerChars t) || kw "budget" (lowerChars t) ||
  kw "social" (lowerChars t) || kw "habit" (lowerChars t) ||
  kw "meditation" (lowerChars t) || kw "language" (lowerChars t)

end ReqRoute

namespace ConvRoute

/-- Does a user message mention any of the five platform keywords the
conversation route's `analyzeUserMessage` tests (`web`, `android`,
`mobile`, `ios`, `iphone`)? -/
def mentionsPlatformMsg (m : String) : Bool :=
  kw "web" (lowerChars m) || kw "android" (lowerChars m) ||
  kw "mobile" (lowerChars m) || kw "ios" (lowerChars m) ||
  kw "iphone" (lowerChars m)

end ConvRoute

namespace AppGen

/-- Modelled from the specification's wording of the name derivation:
filter the idea's (lower-cased, space-split) words to those longer than 3
characters and not in the fixed stop-word list, take up to the first 2
surviving words, capitalize each and concatenate; the fixed fallback when
no words survive. -/
def specDerivedName (idea : String) : String :=
  let surviving := ((lowerWords idea).filter
    (fun word => decide (3 < word.length) && !(stopWords.contains word))).take 2
  if surviving.length = 0 then "MyApp"
  else String.join (surviving.map capitalize)

end AppGen

/-! ## Helper lemmas -/

theorem ConvRoute.get_set_self (s : ConvRoute.Store) (k : String) (v : ConvRoute.ConversationState) :
    (s.set k v).get k = some v := by
  simp [ConvRoute.Store.get, ConvRoute.Store.set]

theorem ConvRoute.handleSendMessage_store (store : ConvRoute.Store) (cid message : String)
    (f : ConvRoute.Fresh) (conv : ConvRoute.ConversationState)
    (h : store.get cid = some conv) :
    (ConvRoute.handleSendMessage store cid message f).2
      = store.set cid (ConvRoute.applySend conv message f) := by
  simp [ConvRoute.handleSendMessage, ConvRoute.applySend, h]

theorem ConvRoute.applySend_roles (conv : ConvRoute.ConversationState) (message : String)
    (f : ConvRoute.Fresh) :
    (ConvRoute.applySend conv message f).messages.map ConvRoute.ConversationMessage.role
      = conv.messages.map ConvRoute.ConversationMessage.role ++ ["user", "assistant"] := by
  simp [ConvRoute.applySend]

theorem ConvRoute.runSends_roles (cid : String) (is : List ConvRoute.SendInput) :
    ∀ (store : ConvRoute.Store) (conv : ConvRoute.ConversationState),
    store.get cid = some conv →
    ∃ conv2, (ConvRoute.runSends store cid is).get cid = some conv2 ∧
      conv2.messages.map ConvRoute.ConversationMessage.role
        = conv.messages.map ConvRoute.ConversationMessage.role
          ++ (List.replicate is.length ["user", "assistant"]).flatten := by
  induction is with
  | nil =>
    intro store conv h
    exact ⟨conv, h, by simp [ConvRoute.runSends]⟩
  | cons i is ih =>
    intro store conv h
    have h2 : ((ConvRoute.handleSendMessage store cid i.message i.fresh).2).get cid
        = some (ConvRoute.applySend conv i.message i.fresh) := by
      rw [ConvRoute.handleSendMessage_store store cid i.message i.fresh conv h,
        ConvRoute.get_set_self]
    obtain ⟨conv2, hget, hroles⟩ := ih _ _ h2
    refine ⟨conv2, by simpa [ConvRoute.runSends] using hget, ?_⟩
    rw [hroles, ConvRoute.applySend_roles]
    simp [List.replicate_succ]

theorem length_join_replicate (n : ℕ) (l : List String) :
    ((List.replicate n l).flatten).length = n * l.length := by
  induction n with
  | zero => simp
  | succ k ih => simp [List.replicate_succ, ih, Nat.succ_mul, Nat.add_comm]

theorem ReqRoute.dedupAux_sound (l : List String) :
    ∀ seen : List String, (ReqRoute.dedupAux l seen).Nodup ∧
      ∀ a ∈ ReqRoute.dedupAux l seen, ¬ a ∈ seen := by
  induction l with
  | nil => intro seen; simp [ReqRoute.dedupAux]
  | cons x xs ih =>
    intro seen
    by_cases hx : x ∈ seen
    · rw [show ReqRoute.dedupAux (x :: xs) seen = ReqRoute.dedupAux xs seen by
        simp [ReqRoute.dedupAux, hx]]
      exact ih seen
    · rw [show ReqRoute.dedupAux (x :: xs) seen = x :: ReqRoute.dedupAux xs (x :: seen) by
        simp [ReqRoute.dedupAux, hx]]
      obtain ⟨hnd, hmem⟩ := ih (x :: seen)
      constructor
      · exact List.nodup_cons.mpr
          ⟨fun hxin => (hmem x hxin) (List.mem_cons_self x seen), hnd⟩
      · intro a ha
        rcases List.mem_cons.mp ha with rfl | ha2
        · exact hx
        · exact fun hain => (hmem a ha2) (List.mem_cons_of_mem _ hain)

theorem ReqRoute.dedupFirst_nodup (l : List String) : (ReqRoute.dedupFirst l).Nodup :=
  (ReqRoute.dedupAux_sound l []).1

theorem ReqRoute.coreFeatures_shape (t : String) :
    ∃ l, (ReqRoute.analyzeTranscriptForRequirements t).coreFeatures
      = (ReqRoute.dedupFirst l).take 5 :=
  ⟨_, rfl⟩

theorem ReqRoute.default_web_ne_nil (l : List String) :
    (if l.length = 0 then l ++ ["web"] else l) ≠ [] := by
  split
  · simp
  · next h => intro heq; rw [heq] at h; simp at h

/-! ## Claim theorems -/

/-- C1 (counterexample): the claim that a conversation in `completion`
stays in `completion` across `send_message` is false: starting a
conversation, ending it (which sets `completion`) and then sending one
more message leaves the conversation in `greeting`, not `completion`. -/
theorem C1_counterexample :
    ((((ConvRoute.handleEndConversation
          (ConvRoute.handleStartConversation ConvRoute.emptyStore "u" "c" "t0" "m0").2
          "c" "t1" "m1").2).get "c").map ConvRoute.ConversationState.currentStep
        = some ConvRoute.Step.completion) ∧
    ¬ ((((ConvRoute.handleSendMessage
          (ConvRoute.handleEndConversation
            (ConvRoute.handleStartConversation ConvRoute.emptyStore "u" "c" "t0" "m0").2
            "c" "t1" "m1").2
          "c" "hello" ⟨"t2", "m2", "t3", "m3"⟩).2).get "c").map
            ConvRoute.ConversationState.currentStep
        = some ConvRoute.Step.completion) := by
  decide

/-- C1 (amended): a `send_message` on a conversation whose `currentStep` is
`completion` falls into the state machine's default branch and resets
`currentStep` to `greeting` — it regresses rather than staying in
`completion`. -/
theorem C1_completion_regresses (store : ConvRoute.Store) (cid message : String)
    (f : ConvRoute.Fresh) (conv : ConvRoute.ConversationState)
    (hget : store.get cid = some conv)
    (hstep : conv.currentStep = ConvRoute.Step.completion) :
    (((ConvRoute.handleSendMessage store cid message f).2).get cid).map
      ConvRoute.ConversationState.currentStep = some ConvRoute.Step.greeting := by
  rw [ConvRoute.handleSendMessage_store store cid message f conv hget,
    ConvRoute.get_set_self]
  simp [ConvRoute.applySend, ConvRoute.generateAIResponse, hstep]

/-- Witness for the amended C1 at a concrete store and message. -/
theorem C1_witness :
    (((ConvRoute.handleSendMessage
        (ConvRoute.emptyStore.set "c" ⟨"c", [], ConvRoute.Step.completion, none⟩)
        "c" "hi" ⟨"t", "m", "t2", "m2"⟩).2).get "c").map
      ConvRoute.ConversationState.currentStep = some ConvRoute.Step.greeting :=
  C1_completion_regresses _ "c" "hi" ⟨"t", "m", "t2", "m2"⟩
    ⟨"c", [], ConvRoute.Step.completion, none⟩ (by decide) rfl

/-- C2: starting a conversation and performing any sequence of N
`send_message` calls on it yields a history of exactly 2·N + 1 messages:
the assistant greeting followed by N (user, assistant) pairs. -/
theorem C2_message_shape (store : ConvRoute.Store) (userId cid ts mid : String)
    (inputs : List ConvRoute.SendInput) :
    ∃ conv,
      (ConvRoute.runSends (ConvRoute.handleStartConversation store userId cid ts mid).2
        cid inputs).get cid = some conv ∧
      conv.messages.length = 2 * inputs.length + 1 ∧
      conv.messages.map ConvRoute.ConversationMessage.role
        = "assistant" :: (List.replicate inputs.length ["user", "assistant"]).flatten := by
  have h0 : ((ConvRoute.handleStartConversation store userId cid ts mid).2).get cid
      = some ⟨cid, [⟨"assistant", ConvRoute.greetingContent, ts, mid⟩],
          ConvRoute.Step.greeting, none⟩ := by
    rw [show (ConvRoute.handleStartConversation store userId cid ts mid).2
        = store.set cid ⟨cid, [⟨"assistant", ConvRoute.greetingContent, ts, mid⟩],
            ConvRoute.Step.greeting, none⟩ from rfl, ConvRoute.get_set_self]
  obtain ⟨conv, hget, hroles⟩ := ConvRoute.runSends_roles cid inputs _ _ h0
  refine ⟨conv, hget, ?_, by simpa using hroles⟩
  have h1 := congrArg List.length hroles
  simp only [List.length_map, List.length_append, List.length_cons, List.length_nil,
    length_join_replicate] at h1
  omega

/-- C3: `send_message`, `get_conversation` and `end_conversation` on a
conversation id that is not in the store all return the not-found error
and leave the store exactly as it was. -/
theorem C3_not_found (store : ConvRoute.Store) (cid message ts mid : String)
    (f : ConvRoute.Fresh) (h : store.get cid = none) :
    ConvRoute.handleSendMessage store cid message f
      = (Except.error "Conversation not found", store) ∧
    ConvRoute.handleGetConversation store cid
      = (Except.error "Conversation not found", store) ∧
    ConvRoute.handleEndConversation store cid ts mid
      = (Except.error "Conversation not found", store) := by
  refine ⟨?_, ?_, ?_⟩ <;>
    simp [ConvRoute.handleSendMessage, ConvRoute.handleGetConversation,
      ConvRoute.handleEndConversation, h]

/-- Witness for C3 on the empty store. -/
theorem C3_witness :
    ConvRoute.handleSendMessage ConvRoute.emptyStore "c" "hi" ⟨"t1", "m1", "t2", "m2"⟩
      = (Except.error "Conversation not found", ConvRoute.emptyStore) ∧
    ConvRoute.handleGetConversation ConvRoute.emptyStore "c"
      = (Except.error "Conversation not found", ConvRoute.emptyStore) ∧
    ConvRoute.handleEndConversation ConvRoute.emptyStore "c" "t3" "m3"
      = (Except.error "Conversation not found", ConvRoute.emptyStore) :=
  C3_not_found ConvRoute.emptyStore "c" "hi" "t3" "m3" ⟨"t1", "m1", "t2", "m2"⟩ rfl

/-- C4: a transcript mentioning none of the platform keywords gets exactly
the default platform list `[web]`, and the extractor's platform list is
never empty for any transcript. -/
theorem C4_platforms_default :
    (∀ t : String, ReqRoute.mentionsPlatform t = false →
      (ReqRoute.analyzeTranscriptForRequirements t).platforms = ["web"]) ∧
    (∀ t : String, (ReqRoute.analyzeTranscriptForRequirements t).platforms ≠ []) := by
  constructor
  · intro t h
    simp only [ReqRoute.mentionsPlatform, Bool.or_eq_false_iff] at h
    obtain ⟨⟨⟨⟨⟨h1, h2⟩, h3⟩, h4⟩, h5⟩, h6⟩ := h
    simp [ReqRoute.analyzeTranscriptForRequirements, h1, h2, h3, h4, h5, h6]
  · intro t
    exact ReqRoute.default_web_ne_nil _

/-- Witness for C4 on concrete transcripts. -/
theorem C4_witness :
    (ReqRoute.analyzeTranscriptForRequirements "a todo list").platforms = ["web"] :=
  C4_platforms_default.1 "a todo list" (by decide)

/-- C5: the extracted `coreFeatures` always has at most 5 entries and no
duplicates, and a transcript matching none of the domain keywords gets
exactly the 3 generic features. -/
theorem C5_coreFeatures :
    (∀ t : String,
      (ReqRoute.analyzeTranscriptForRequirements t).coreFeatures.length ≤ 5 ∧
      (ReqRoute.analyzeTranscriptForRequirements t).coreFeatures.Nodup) ∧
    (∀ t : String, ReqRoute.mentionsDomain t = false →
      (ReqRoute.analyzeTranscriptForRequirements t).coreFeatures
        = ["user interface", "data management", "responsive design"]) := by
  constructor
  · intro t
    obtain ⟨l, hl⟩ := ReqRoute.coreFeatures_shape t
    rw [hl]
    constructor
    · exact List.length_take_le 5 (ReqRoute.dedupFirst l)
    · exact (ReqRoute.dedupFirst_nodup l).sublist (List.take_sublist 5 _)
  · intro t h
    simp only [ReqRoute.mentionsDomain, Bool.or_eq_false_iff] at h
    obtain ⟨⟨⟨⟨⟨⟨⟨h1, h2⟩, h3⟩, h4⟩, h5⟩, h6⟩, h7⟩, h8⟩ := h
    simp [ReqRoute.analyzeTranscriptForRequirements, ReqRoute.featureKeywords,
      h1, h2, h3, h4, h5, h6, h7, h8, ReqRoute.dedupFirst, ReqRoute.dedupAux]

/-- Witness for C5 on a concrete transcript with no domain keyword. -/
theorem C5_witness :
    (ReqRoute.analyzeTranscriptForRequirements "an app for notes").coreFeatures
      = ["user interface", "data management", "responsive design"] :=
  C5_coreFeatures.2 "an app for notes" (by decide)

/-- C6: the response type of `generateConversationResponse` is exactly the
confidence-gated selector the specification describes: below 0.8
clarification, empty platforms clarification, at least 3 features with
confidence at least 0.8 confirmation, otherwise clarification. -/
theorem C6_selector (r : ReqRoute.RequirementsAnalysis) (c : ℚ) (st : String) :
    (ReqRoute.generateConversationResponse r c st).type
      = ReqRoute.specResponseType r.platforms r.coreFeatures.length c := by
  simp only [ReqRoute.generateConversationResponse, ReqRoute.specResponseType]
  split_ifs with h1 h2 h3 h4 h5 h6 h7 <;>
    simp_all [List.length_eq_zero]

/-- C7: `start` creates a conversation in step `greeting` whose history is
exactly the one assistant greeting message, with null
`extractedRequirements`, and stores it under the returned id. -/
theorem C7_start (store : ConvRoute.Store) (userId conversationId ts mid : String) :
    ((ConvRoute.handleStartConversation store userId conversationId ts mid).1.currentState.currentStep
      = ConvRoute.Step.greeting) ∧
    ((ConvRoute.handleStartConversation store userId conversationId ts mid).1.currentState.messages
      = [⟨"assistant", ConvRoute.greetingContent, ts, mid⟩]) ∧
    ((ConvRoute.handleStartConversation store userId conversationId ts mid).1.currentState.extractedRequirements
      = none) ∧
    (((ConvRoute.handleStartConversation store userId conversationId ts mid).2).get conversationId
      = some (ConvRoute.handleStartConversation store userId conversationId ts mid).1.currentState) := by
  refine ⟨rfl, rfl, rfl, ?_⟩
  exact ConvRoute.get_set_self store conversationId _

/-- C8: the app-name derivation agrees with the specification's wording on
every idea, the fallback name is `MyApp` whenever no word survives the
filter, and on the spec's example idea the name is `SimpleTodo` with the
todo-shaped web template selected. -/
theorem C8_app_name :
    (∀ idea : String, AppGen.generateAppName idea = AppGen.specDerivedName idea) ∧
    (∀ idea : String, AppGen.nameWords idea = [] →
      AppGen.generateAppName idea = "MyApp") ∧
    AppGen.generateAppName "A simple todo app" = "SimpleTodo" ∧
    AppGen.usesTodoTemplate "A simple todo app" = true := by
  refine ⟨fun idea => rfl, ?_, by decide, by decide⟩
  intro idea h
  simp [AppGen.generateAppName, h]

/-- Witness for C8's fallback branch on a concrete idea made only of
stop-words and short words. -/
theorem C8_witness : AppGen.generateAppName "the app" = "MyApp" :=
  C8_app_name.2.1 "the app" (by decide)

/-- C9: the stateless route's response selector never produces the type
`completion`, so the returned `nextState` always equals the supplied
`currentState` (defaulting to `gathering_requirements`). -/
theorem C9_no_completion (r : ReqRoute.RequirementsAnalysis) (c : ℚ) (st : String)
    (cs : Option String) :
    (ReqRoute.generateConversationResponse r c st).type ≠ "completion" ∧
    ReqRoute.postNextState (ReqRoute.generateConversationResponse r c st) cs
      = cs.getD "gathering_requirements" := by
  have htype : (ReqRoute.generateConversationResponse r c st).type ≠ "completion" := by
    simp only [ReqRoute.generateConversationResponse]
    split_ifs <;> simp
  refine ⟨htype, ?_⟩
  simp [ReqRoute.postNextState, htype]

/-- C10: a user message mentioning none of the conversation route's five
platform keywords is analyzed to an empty platform list (there is no
`{web}` fallback in this variant), and consequently a conversation's
stored `extractedRequirements` can hold an empty platform list after a
`send_message`. -/
theorem C10_empty_platforms :
    (∀ m : String, ConvRoute.mentionsPlatformMsg m = false →
      (ConvRoute.analyzeUserMessage m).initialRequirements.platforms = some [] ∧
      (ConvRoute.analyzeUserMessage m).platformRequirements.platforms = some []) ∧
    ((((ConvRoute.runSends
        (ConvRoute.handleStartConversation ConvRoute.emptyStore "u" "c" "t" "m").2 "c"
        [⟨"i want an app", ⟨"t1", "m1", "t2", "m2"⟩⟩]).get "c").bind
        ConvRoute.ConversationState.extractedRequirements).bind ConvRoute.Reqs.platforms
      = some []) := by
  constructor
  · intro m h
    simp only [ConvRoute.mentionsPlatformMsg, Bool.or_eq_false_iff] at h
    obtain ⟨⟨⟨⟨h1, h2⟩, h3⟩, h4⟩, h5⟩ := h
    constructor <;> simp [ConvRoute.analyzeUserMessage, h1, h2, h3, h4, h5]
  · decide

/-- Witness for C10's universally quantified part on a concrete message. -/
theorem C10_witness :
    (ConvRoute.analyzeUserMessage "hello").initialRequirements.platforms = some [] :=
  (C10_empty_platforms.1 "hello" (by decide)).1
